import Mathlib

/-!
Verification development for the favicon-generation script
`src/apps/site/public/images.py`.

The script is a linear pipeline:
1. for each (filename, size) in the `sizes` dict (insertion order), call
   `cairosvg.svg2png(url=input_svg, write_to=filename, output_width=size,
   output_height=size)` and print "Created <filename>";
2. render a 256x256 PNG to "temp_256.png";
3. open it with PIL and save "favicon.ico" with
   `sizes=[(16,16),(32,32),(48,48),(256,256)]`, then print
   "Created favicon.ico".

We embed the script as a function from an environment (the SVG source file,
an abstract deterministic rasterizer, an abstract downscaler modelling the
internal ICO resampling of PIL, and per-path writability) to a trace of observable
events (file writes and console prints) together with an optional failure.
The event vocabulary has no delete or rename: the script never removes or
renames a file, so absence of such events is part of the embedding.
-/

namespace OrbitCheck

/-- A file on disk: either a PNG raster with a width, a height and abstract
pixel content, or an ICO container embedding a list of (width, height,
pixel-content) entries. -/
inductive File where
  | png (width height pixels : Nat)
  | ico (entries : List (Nat × Nat × Nat))
deriving DecidableEq

/-- An observable event of a run: a file write (the only filesystem effect
the script performs) or a console print. -/
inductive Event where
  | write (name : String) (file : File)
  | print (line : String)
deriving DecidableEq

/-- The failure kinds of the pipeline: a render failure (the SVG source is
missing or malformed, raised by `cairosvg` before any write of that call)
or a write failure at a target path. -/
inductive Failure where
  | renderFailure
  | writeFailure (name : String)
deriving DecidableEq

/-- The environment a run executes in.
`svg` is the content of "favicon.svg" (`none` when the file is absent);
`render c w h` is the abstract pixel content `cairosvg` produces when
rasterizing source content `c` at `w` x `h` (a pure function: `cairosvg`
rendering is deterministic in source content and requested size);
`downscale b w h` is the abstract pixel content PIL produces when resampling
base content `b` to `w` x `h` while packing an ICO;
`writeOk p` tells whether a write to path `p` succeeds. -/
structure Env where
  svg : Option Nat
  render : Nat → Nat → Nat → Nat
  downscale : Nat → Nat → Nat → Nat
  writeOk : String → Bool

/-- The input path, `input_svg = "favicon.svg"` in the script. -/
def input_svg : String := "favicon.svg"

/-- The Size Specification: the `sizes` dict of the script, in insertion
order. -/
def sizes : List (String × Nat) :=
  [("favicon-16x16.png", 16), ("favicon-32x32.png", 32), ("apple-touch-icon.png", 180)]

/-- The resolution list passed to `img.save` with format ICO. -/
def icoSizes : List (Nat × Nat) := [(16, 16), (32, 32), (48, 48), (256, 256)]

/-- One call `cairosvg.svg2png(url=input_svg, write_to=writeTo,
output_width=w, output_height=h)`: fails with a render failure when the SVG
source is absent (before writing anything), fails with a write failure when
the target path is unwritable, and otherwise produces the write event of a
`w` x `h` PNG whose content is the rasterization of the source content. -/
def svg2png (env : Env) (writeTo : String) (w h : Nat) : Except Failure Event :=
  match env.svg with
  | none => Except.error Failure.renderFailure
  | some c =>
    if env.writeOk writeTo then
      Except.ok (Event.write writeTo (File.png w h (env.render c w h)))
    else
      Except.error (Failure.writeFailure writeTo)

/-- The first loop of the script (Operation A): for each entry of the size
specification, render and write the PNG and print "Created <filename>"; on
the first failure, stop immediately with that failure and no further
events. -/
def batchRasterize (env : Env) : List (String × Nat) → List Event × Option Failure
  | [] => ([], none)
  | (filename, size) :: rest =>
    match svg2png env filename size size with
    | Except.error e => ([], some e)
    | Except.ok ev =>
      match batchRasterize env rest with
      | (evs, f) => (ev :: Event.print ("Created " ++ filename) :: evs, f)

/-- The ICO file that `img.save` with format ICO and the `icoSizes` list
produces from a base image with pixel content `base`: one embedded entry per
requested resolution, each derived from the base content by the internal
resampling of PIL. -/
def icoSave (env : Env) (base : Nat) : File :=
  File.ico (icoSizes.map (fun p => (p.1, p.2, env.downscale base p.1 p.2)))

/-- Steps 3 of the script (Operations B and C): render the SVG at 256x256 to
"temp_256.png", open that just-written file, save "favicon.ico" embedding
the `icoSizes` resolutions derived from the 256x256 content, and print
"Created favicon.ico". Any failure stops the run at that point. -/
def packSteps (env : Env) : List Event × Option Failure :=
  match env.svg with
  | none => ([], some Failure.renderFailure)
  | some c =>
    if env.writeOk "temp_256.png" then
      if env.writeOk "favicon.ico" then
        ([Event.write "temp_256.png" (File.png 256 256 (env.render c 256 256)),
          Event.write "favicon.ico" (icoSave env (env.render c 256 256)),
          Event.print "Created favicon.ico"], none)
      else
        ([Event.write "temp_256.png" (File.png 256 256 (env.render c 256 256))],
         some (Failure.writeFailure "favicon.ico"))
    else
      ([], some (Failure.writeFailure "temp_256.png"))

/-- The whole script, generalized over the size specification used by the
first loop: run the batch, and if it succeeded run the packing steps. -/
def runPipelineWith (env : Env) (spec : List (String × Nat)) :
    List Event × Option Failure :=
  match batchRasterize env spec with
  | (evs, some e) => (evs, some e)
  | (evs, none) =>
    match packSteps env with
    | (evs2, f) => (evs ++ evs2, f)

/-- The script as written: the pipeline over the concrete `sizes`
specification. -/
def runPipeline (env : Env) : List Event × Option Failure :=
  runPipelineWith env sizes

/-- The names of the files written in a trace, in order of writing. -/
def writeNames (evs : List Event) : List String :=
  evs.filterMap (fun e =>
    match e with
    | Event.write n _ => some n
    | Event.print _ => none)

/-- The console lines printed in a trace, in order. -/
def printLines (evs : List Event) : List String :=
  evs.filterMap (fun e =>
    match e with
    | Event.write _ _ => none
    | Event.print l => some l)

/-- Replaying one event on a filesystem (an association list from path to
file): a write stores the file under its path, replacing any previous file
there; a print leaves the filesystem unchanged. -/
def applyEvent (fs : List (String × File)) : Event → List (String × File)
  | Event.write n f => (n, f) :: fs.filter (fun p => p.1 != n)
  | Event.print _ => fs

/-- The filesystem state after replaying a trace from an empty disk. -/
def finalFs (evs : List Event) : List (String × File) :=
  evs.foldl applyEvent []

/-- Checks that every print in the trace confirms a file already written
before it: each printed line must read "Created <n>" for some path `n`
written earlier in the trace (`ws` accumulates the written paths). -/
def confirmsAfterWrite (ws : List String) : List Event → Bool
  | [] => true
  | Event.write n _ :: rest => confirmsAfterWrite (n :: ws) rest
  | Event.print l :: rest =>
    ws.any (fun n => l == "Created " ++ n) && confirmsAfterWrite ws rest

/-- The trace of a fully successful batch over `spec` with source content
`c`: for each entry in order, the PNG write then its confirmation line. -/
def batchTrace (env : Env) (c : Nat) : List (String × Nat) → List Event
  | [] => []
  | (filename, size) :: rest =>
    Event.write filename (File.png size size (env.render c size size)) ::
    Event.print ("Created " ++ filename) :: batchTrace env c rest

/-- A concrete environment with the SVG source present, every path
writable, and concrete rasterizer and downscaler functions; used to
instantiate theorems at a fully evaluable input. -/
def envOk : Env :=
  { svg := some 5
    render := fun c w h => c + w * h
    downscale := fun b w h => b + w + h
    writeOk := fun _ => true }

/-- A second, definitionally separate environment whose fields agree with
`envOk`. -/
def envOk2 : Env :=
  { svg := some 5
    render := fun c w h => c + w * h
    downscale := fun b w h => b + w + h
    writeOk := fun _ => true }

/-- An environment whose SVG source file is absent. -/
def envAbsent : Env :=
  { svg := none
    render := fun c w h => c + w * h
    downscale := fun b w h => b + w + h
    writeOk := fun _ => true }

/-- An environment where the path "b.png" is not writable. -/
def envNoB : Env :=
  { svg := some 5
    render := fun c w h => c + w * h
    downscale := fun b w h => b + w + h
    writeOk := fun p => !(p == "b.png") }

lemma batch_success (env : Env) (c : Nat) (hsvg : env.svg = some c)
    (hw : ∀ p, env.writeOk p = true) :
    ∀ spec, batchRasterize env spec = (batchTrace env c spec, none) := by
  intro spec
  induction spec with
  | nil => rfl
  | cons hd tl ih =>
    obtain ⟨filename, size⟩ := hd
    simp [batchRasterize, svg2png, hsvg, hw, batchTrace, ih]

lemma pack_success (env : Env) (c : Nat) (hsvg : env.svg = some c)
    (hw : ∀ p, env.writeOk p = true) :
    packSteps env =
      ([Event.write "temp_256.png" (File.png 256 256 (env.render c 256 256)),
        Event.write "favicon.ico" (icoSave env (env.render c 256 256)),
        Event.print "Created favicon.ico"], none) := by
  simp [packSteps, hsvg, hw]

lemma run_success (env : Env) (c : Nat) (hsvg : env.svg = some c)
    (hw : ∀ p, env.writeOk p = true) (spec : List (String × Nat)) :
    runPipelineWith env spec =
      (batchTrace env c spec ++
        [Event.write "temp_256.png" (File.png 256 256 (env.render c 256 256)),
         Event.write "favicon.ico" (icoSave env (env.render c 256 256)),
         Event.print "Created favicon.ico"], none) := by
  simp [runPipelineWith, batch_success env c hsvg hw, pack_success env c hsvg hw]

lemma writeNames_batchTrace (env : Env) (c : Nat) :
    ∀ spec, writeNames (batchTrace env c spec) = spec.map Prod.fst := by
  intro spec
  induction spec with
  | nil => rfl
  | cons hd tl ih =>
    obtain ⟨filename, size⟩ := hd
    simp [batchTrace, writeNames] at ih ⊢
    exact ih

lemma printLines_batchTrace (env : Env) (c : Nat) :
    ∀ spec, printLines (batchTrace env c spec) =
      spec.map (fun p => "Created " ++ p.1) := by
  intro spec
  induction spec with
  | nil => rfl
  | cons hd tl ih =>
    obtain ⟨filename, size⟩ := hd
    simp [batchTrace, printLines] at ih ⊢
    exact ih

lemma writeNames_append (xs ys : List Event) :
    writeNames (xs ++ ys) = writeNames xs ++ writeNames ys := by
  simp [writeNames, List.filterMap_append]

lemma printLines_append (xs ys : List Event) :
    printLines (xs ++ ys) = printLines xs ++ printLines ys := by
  simp [printLines, List.filterMap_append]

lemma batch_writeNames_sublist (env : Env) :
    ∀ spec, List.Sublist (writeNames (batchRasterize env spec).1) (spec.map Prod.fst) := by
  intro spec
  induction spec with
  | nil => simp [batchRasterize, writeNames]
  | cons hd tl ih =>
    obtain ⟨filename, size⟩ := hd
    cases hsvg : env.svg with
    | none => simp [batchRasterize, svg2png, hsvg, writeNames]
    | some c =>
      cases hw : env.writeOk filename with
      | false => simp [batchRasterize, svg2png, hsvg, hw, writeNames]
      | true =>
        simpa [batchRasterize, svg2png, hsvg, hw, writeNames] using ih

lemma batch_writes_are_png (env : Env) :
    ∀ spec n ents, Event.write n (File.ico ents) ∉ (batchRasterize env spec).1 := by
  intro spec
  induction spec with
  | nil => simp [batchRasterize]
  | cons hd tl ih =>
    obtain ⟨filename, size⟩ := hd
    intro n ents
    cases hsvg : env.svg with
    | none => simp [batchRasterize, svg2png, hsvg]
    | some c =>
      cases hw : env.writeOk filename with
      | false => simp [batchRasterize, svg2png, hsvg, hw]
      | true =>
        simp [batchRasterize, svg2png, hsvg, hw]
        exact ih n ents

lemma run_writeNames (env : Env) (spec : List (String × Nat)) :
    ∃ s, writeNames (runPipelineWith env spec).1 =
        writeNames (batchRasterize env spec).1 ++ s ∧
      List.Sublist s ["temp_256.png", "favicon.ico"] := by
  rcases hb : batchRasterize env spec with ⟨evs, f⟩
  cases f with
  | some e => exact ⟨[], by simp [runPipelineWith, hb], by simp⟩
  | none =>
    cases hsvg : env.svg with
    | none =>
      exact ⟨[], by simp [runPipelineWith, hb, packSteps, hsvg, writeNames_append,
        writeNames], by simp⟩
    | some c =>
      cases ht : env.writeOk "temp_256.png" with
      | false =>
        exact ⟨[], by simp [runPipelineWith, hb, packSteps, hsvg, ht,
          writeNames_append, writeNames], by simp⟩
      | true =>
        cases hi : env.writeOk "favicon.ico" with
        | false =>
          refine ⟨["temp_256.png"], ?_, ?_⟩
          · simp [runPipelineWith, hb, packSteps, hsvg, ht, hi,
              writeNames_append, writeNames]
          · simp
        | true =>
          refine ⟨["temp_256.png", "favicon.ico"], ?_, ?_⟩
          · simp [runPipelineWith, hb, packSteps, hsvg, ht, hi,
              writeNames_append, writeNames]
          · simp

lemma confirmsAfterWrite_append (xs : List Event) : ∀ (ys : List Event)
    (ws : List String),
    confirmsAfterWrite ws (xs ++ ys) =
      (confirmsAfterWrite ws xs &&
        confirmsAfterWrite
          (xs.foldl (fun a e =>
            match e with
            | Event.write n _ => n :: a
            | Event.print _ => a) ws) ys) := by
  induction xs with
  | nil => intro ys ws; simp [confirmsAfterWrite]
  | cons e tl ih =>
    intro ys ws
    cases e with
    | write n f => simp [confirmsAfterWrite, ih]
    | print l => simp [confirmsAfterWrite, ih, Bool.and_assoc]

lemma confirmsAfterWrite_batch (env : Env) :
    ∀ spec ws, confirmsAfterWrite ws (batchRasterize env spec).1 = true := by
  intro spec
  induction spec with
  | nil => intro ws; simp [batchRasterize, confirmsAfterWrite]
  | cons hd tl ih =>
    obtain ⟨filename, size⟩ := hd
    intro ws
    cases hsvg : env.svg with
    | none => simp [batchRasterize, svg2png, hsvg, confirmsAfterWrite]
    | some c =>
      cases hw : env.writeOk filename with
      | false => simp [batchRasterize, svg2png, hsvg, hw, confirmsAfterWrite]
      | true =>
        simp [batchRasterize, svg2png, hsvg, hw, confirmsAfterWrite, ih]

lemma confirmsAfterWrite_pack (env : Env) :
    ∀ ws, confirmsAfterWrite ws (packSteps env).1 = true := by
  intro ws
  cases hsvg : env.svg with
  | none => simp [packSteps, hsvg, confirmsAfterWrite]
  | some c =>
    cases ht : env.writeOk "temp_256.png" with
    | false => simp [packSteps, hsvg, ht, confirmsAfterWrite]
    | true =>
      cases hi : env.writeOk "favicon.ico" with
      | false => simp [packSteps, hsvg, ht, hi, confirmsAfterWrite]
      | true => simp [packSteps, hsvg, ht, hi, confirmsAfterWrite]

lemma confirmsAfterWrite_run (env : Env) (spec : List (String × Nat))
    (ws : List String) :
    confirmsAfterWrite ws (runPipelineWith env spec).1 = true := by
  rcases hb : batchRasterize env spec with ⟨evs, f⟩
  cases f with
  | some e =>
    have := confirmsAfterWrite_batch env spec ws
    rw [hb] at this
    simpa [runPipelineWith, hb] using this
  | none =>
    have h1 := confirmsAfterWrite_batch env spec ws
    rw [hb] at h1
    have h2 := confirmsAfterWrite_pack env
    simp [runPipelineWith, hb, confirmsAfterWrite_append, h1, h2]

lemma batch_prints_confirm (env : Env) :
    ∀ spec l, Event.print l ∈ (batchRasterize env spec).1 →
      ∃ n, l = "Created " ++ n ∧ n ∈ writeNames (batchRasterize env spec).1 := by
  intro spec
  induction spec with
  | nil => intro l h; simp [batchRasterize] at h
  | cons hd tl ih =>
    obtain ⟨filename, size⟩ := hd
    intro l h
    cases hsvg : env.svg with
    | none => simp [batchRasterize, svg2png, hsvg] at h
    | some c =>
      cases hw : env.writeOk filename with
      | false => simp [batchRasterize, svg2png, hsvg, hw] at h
      | true =>
        simp [batchRasterize, svg2png, hsvg, hw] at h
        rcases h with h | h
        · exact ⟨filename, h, by
            simp [batchRasterize, svg2png, hsvg, hw, writeNames]⟩
        · rcases ih l h with ⟨n, hl, hn⟩
          refine ⟨n, hl, ?_⟩
          simp [batchRasterize, svg2png, hsvg, hw, writeNames] at hn ⊢
          exact Or.inr hn

lemma pack_prints_confirm (env : Env) :
    ∀ l, Event.print l ∈ (packSteps env).1 →
      l = "Created favicon.ico" ∧ "favicon.ico" ∈ writeNames (packSteps env).1 := by
  intro l h
  cases hsvg : env.svg with
  | none => simp [packSteps, hsvg] at h
  | some c =>
    cases ht : env.writeOk "temp_256.png" with
    | false => simp [packSteps, hsvg, ht] at h
    | true =>
      cases hi : env.writeOk "favicon.ico" with
      | false => simp [packSteps, hsvg, ht, hi] at h
      | true =>
        simp [packSteps, hsvg, ht, hi] at h
        exact ⟨h, by simp [packSteps, hsvg, ht, hi, writeNames]⟩

lemma exists_mem_foldl (tr : List Event) :
    ∀ (fs₀ : List (String × File)) (n : String),
      (n ∈ writeNames tr ∨ ∃ f, (n, f) ∈ fs₀) →
      ∃ f, (n, f) ∈ tr.foldl applyEvent fs₀ := by
  induction tr with
  | nil =>
    intro fs₀ n h
    rcases h with h | h
    · simp [writeNames] at h
    · simpa using h
  | cons e tl ih =>
    intro fs₀ n h
    cases e with
    | print l =>
      refine ih (applyEvent fs₀ (Event.print l)) n ?_
      rcases h with h | h
      · exact Or.inl (by simpa [writeNames] using h)
      · exact Or.inr (by simpa [applyEvent] using h)
    | write m g =>
      refine ih (applyEvent fs₀ (Event.write m g)) n ?_
      by_cases hnm : n = m
      · subst hnm
        exact Or.inr ⟨g, by simp [applyEvent]⟩
      · rcases h with h | h
        · simp [writeNames] at h
          rcases h with h | h
          · exact absurd h hnm
          · exact Or.inl (by simpa [writeNames] using h)
        · rcases h with ⟨f, hf⟩
          refine Or.inr ⟨f, ?_⟩
          simp [applyEvent, List.mem_filter]
          exact Or.inr ⟨hf, by simpa using hnm⟩

lemma mem_finalFs_of_written (tr : List Event) (n : String)
    (h : n ∈ writeNames tr) : ∃ f, (n, f) ∈ finalFs tr :=
  exists_mem_foldl tr [] n (Or.inl h)

lemma run_prints_confirm (env : Env) (spec : List (String × Nat)) (l : String)
    (h : Event.print l ∈ (runPipelineWith env spec).1) :
    ∃ n, l = "Created " ++ n ∧ n ∈ writeNames (runPipelineWith env spec).1 := by
  rcases hb : batchRasterize env spec with ⟨evs, f⟩
  cases f with
  | some e =>
    rw [runPipelineWith, hb] at h ⊢
    have := batch_prints_confirm env spec l
    rw [hb] at this
    exact this h
  | none =>
    rw [runPipelineWith, hb] at h ⊢
    simp only [List.mem_append] at h
    rcases h with h | h
    · have := batch_prints_confirm env spec l
      rw [hb] at this
      rcases this h with ⟨n, hl, hn⟩
      exact ⟨n, hl, by simp [writeNames_append]; exact Or.inl hn⟩
    · rcases pack_prints_confirm env l h with ⟨hl, hn⟩
      exact ⟨"favicon.ico", hl, by simp [writeNames_append]; exact Or.inr hn⟩

lemma batchTrace_writes_are_png (env : Env) (c : Nat) :
    ∀ spec n ents, Event.write n (File.ico ents) ∉ batchTrace env c spec := by
  intro spec
  induction spec with
  | nil => simp [batchTrace]
  | cons hd tl ih =>
    obtain ⟨filename, size⟩ := hd
    intro n ents
    simp [batchTrace]
    exact ih n ents

lemma batchTrace_png_content (env : Env) (c : Nat) :
    ∀ spec n w h px, Event.write n (File.png w h px) ∈ batchTrace env c spec →
      w = h ∧ px = env.render c w h := by
  intro spec
  induction spec with
  | nil => simp [batchTrace]
  | cons hd tl ih =>
    obtain ⟨filename, size⟩ := hd
    intro n w h px hmem
    simp [batchTrace] at hmem
    rcases hmem with ⟨_, hw', hh, hpx⟩ | hmem
    · subst hw'; subst hh; subst hpx; exact ⟨rfl, rfl⟩
    · exact ih n w h px hmem

/-- C1: in a run where the SVG source is present and every path is
writable, Operation A (the batch loop over the Size Specification) writes
exactly the keys of the Size Specification, in insertion order, with no
extra and no missing output; every PNG it writes is square with width and
height equal to the specified size of its entry; and the write of each entry is
present with exactly the rasterization of the source at that size. -/
theorem C1_batch_sizes_exact (env : Env) (c : Nat) (hsvg : env.svg = some c)
    (hw : ∀ p, env.writeOk p = true) :
    writeNames (batchRasterize env sizes).1 =
      ["favicon-16x16.png", "favicon-32x32.png", "apple-touch-icon.png"] ∧
    (∀ n w h px, Event.write n (File.png w h px) ∈ (batchRasterize env sizes).1 →
      w = h ∧ (n, w) ∈ sizes) ∧
    (∀ filename size, (filename, size) ∈ sizes →
      Event.write filename (File.png size size (env.render c size size)) ∈
        (batchRasterize env sizes).1) := by
  rw [batch_success env c hsvg hw]
  refine ⟨by simp [sizes, batchTrace, writeNames], ?_, ?_⟩
  · intro n w h px hmem
    simp [sizes, batchTrace] at hmem
    rcases hmem with ⟨hn, hw', hh, _⟩ | ⟨hn, hw', hh, _⟩ | ⟨hn, hw', hh, _⟩ <;>
      subst hn <;> subst hw' <;> subst hh <;> simp [sizes]
  · intro filename size hmem
    simp [sizes] at hmem
    rcases hmem with ⟨hn, hs⟩ | ⟨hn, hs⟩ | ⟨hn, hs⟩ <;> subst hn <;> subst hs <;>
      simp [sizes, batchTrace]

/-- Witness for C1 at the concrete environment `envOk`. -/
theorem C1_batch_sizes_exact_witness :
    writeNames (batchRasterize envOk sizes).1 =
      ["favicon-16x16.png", "favicon-32x32.png", "apple-touch-icon.png"] :=
  (C1_batch_sizes_exact envOk 5 rfl (fun _ => rfl)).1

/-- C2: in a successful run over ANY size specification (not just the
`sizes` list of the script), the ICO file written under "favicon.ico" embeds exactly
the four resolutions 16x16, 32x32, 48x48 and 256x256: the write of that
container is in the trace, and every ICO container written in the run has
exactly that resolution list, independently of the specification driving
Operation A. -/
theorem C2_ico_resolutions_fixed (spec : List (String × Nat)) (env : Env)
    (c : Nat) (hsvg : env.svg = some c) (hw : ∀ p, env.writeOk p = true) :
    Event.write "favicon.ico" (icoSave env (env.render c 256 256)) ∈
      (runPipelineWith env spec).1 ∧
    (∀ ents, Event.write "favicon.ico" (File.ico ents) ∈
        (runPipelineWith env spec).1 →
      ents.map (fun t => (t.1, t.2.1)) = [(16, 16), (32, 32), (48, 48), (256, 256)]) := by
  rw [run_success env c hsvg hw spec]
  constructor
  · simp
  · intro ents hmem
    simp only [List.mem_append] at hmem
    rcases hmem with hmem | hmem
    · exact absurd hmem (batchTrace_writes_are_png env c spec "favicon.ico" ents)
    · simp [icoSave] at hmem
      subst hmem
      simp [icoSizes]

/-- Witness for C2 at `envOk` over a size specification disjoint from the
own list of the script, showing that the container resolutions do not track it. -/
theorem C2_ico_resolutions_fixed_witness :
    Event.write "favicon.ico" (icoSave envOk (envOk.render 5 256 256)) ∈
      (runPipelineWith envOk [("other.png", 64)]).1 :=
  (C2_ico_resolutions_fixed [("other.png", 64)] envOk 5 rfl (fun _ => rfl)).1

lemma batch_fail_at (env : Env) (c : Nat) (hsvg : env.svg = some c)
    (filename : String) (size : Nat) (hwf : env.writeOk filename = false) :
    ∀ pre post, (∀ p, p ∈ pre → env.writeOk p.1 = true) →
      batchRasterize env (pre ++ (filename, size) :: post) =
        (batchTrace env c pre, some (Failure.writeFailure filename)) := by
  intro pre
  induction pre with
  | nil => intro post _; simp [batchRasterize, svg2png, hsvg, hwf, batchTrace]
  | cons hd tl ih =>
    intro post hpre
    obtain ⟨n, s⟩ := hd
    have hn : env.writeOk n = true := hpre (n, s) (by simp)
    simp [batchRasterize, svg2png, hsvg, hn, batchTrace,
      ih post (fun p hp => hpre p (by simp [hp]))]

/-- C3: (a) when the SVG source file is absent, the run produces no event
at all — no file write, no print — and stops with a render failure (raised
by the first rasterizer call before any write); (b) when the write of batch
entry k fails, the trace consists exactly of the writes and confirmation
lines of entries 1..k-1, the run stops with that write failure, and no
cleanup, retry or further output follows. -/
theorem C3_failure_stops_run :
    (∀ env, env.svg = none → runPipeline env = ([], some Failure.renderFailure)) ∧
    (∀ env c pre filename size post, env.svg = some c →
      (∀ p, p ∈ pre → env.writeOk p.1 = true) → env.writeOk filename = false →
      runPipelineWith env (pre ++ (filename, size) :: post) =
        (batchTrace env c pre, some (Failure.writeFailure filename))) := by
  constructor
  · intro env h
    simp [runPipeline, runPipelineWith, batchRasterize, svg2png, h, sizes]
  · intro env c pre filename size post hsvg hpre hwf
    rw [runPipelineWith, batch_fail_at env c hsvg filename size hwf pre post hpre]

/-- Witness for C3: the absent-source environment produces the empty trace
with a render failure, and a failure at the second of three entries leaves
exactly the write and confirmation of the first entry. -/
theorem C3_failure_stops_run_witness :
    runPipeline envAbsent = ([], some Failure.renderFailure) ∧
    runPipelineWith envNoB [("a.png", 16), ("b.png", 32), ("c.png", 48)] =
      ([Event.write "a.png" (File.png 16 16 261), Event.print "Created a.png"],
       some (Failure.writeFailure "b.png")) :=
  ⟨C3_failure_stops_run.1 envAbsent rfl,
   C3_failure_stops_run.2 envNoB 5 [("a.png", 16)] "b.png" 32 [("c.png", 48)]
     rfl (by decide) rfl⟩

/-- C4: in a successful run the full event trace is exactly: the three
size-specification writes in insertion order, each immediately followed by
its confirmation line, then the 256x256 temporary write (Operation B), then
the container write and its confirmation (Operation C); in particular the
four confirmation lines appear in the order: the three size entries first,
the container line last. -/
theorem C4_sequential_order (env : Env) (c : Nat) (hsvg : env.svg = some c)
    (hw : ∀ p, env.writeOk p = true) :
    (runPipeline env).1 =
      [Event.write "favicon-16x16.png" (File.png 16 16 (env.render c 16 16)),
       Event.print "Created favicon-16x16.png",
       Event.write "favicon-32x32.png" (File.png 32 32 (env.render c 32 32)),
       Event.print "Created favicon-32x32.png",
       Event.write "apple-touch-icon.png" (File.png 180 180 (env.render c 180 180)),
       Event.print "Created apple-touch-icon.png",
       Event.write "temp_256.png" (File.png 256 256 (env.render c 256 256)),
       Event.write "favicon.ico" (icoSave env (env.render c 256 256)),
       Event.print "Created favicon.ico"] ∧
    printLines (runPipeline env).1 =
      ["Created favicon-16x16.png", "Created favicon-32x32.png",
       "Created apple-touch-icon.png", "Created favicon.ico"] := by
  have hrun := run_success env c hsvg hw sizes
  constructor
  · simp only [runPipeline]
    rw [hrun]
    simp [sizes, batchTrace]
  · simp only [runPipeline]
    rw [hrun]
    simp [sizes, batchTrace, printLines_append, printLines]

/-- Witness for C4 at `envOk`: the fully evaluated trace of the script. -/
theorem C4_sequential_order_witness :
    (runPipeline envOk).1 =
      [Event.write "favicon-16x16.png" (File.png 16 16 261),
       Event.print "Created favicon-16x16.png",
       Event.write "favicon-32x32.png" (File.png 32 32 1029),
       Event.print "Created favicon-32x32.png",
       Event.write "apple-touch-icon.png" (File.png 180 180 32405),
       Event.print "Created apple-touch-icon.png",
       Event.write "temp_256.png" (File.png 256 256 65541),
       Event.write "favicon.ico"
         (File.ico [(16, 16, 65573), (32, 32, 65605), (48, 48, 65637),
                    (256, 256, 66053)]),
       Event.print "Created favicon.ico"] :=
  (C4_sequential_order envOk 5 rfl (fun _ => rfl)).1

/-- C5 counterexample: in a concrete successful run the temporary file
"temp_256.png" is one of the produced output files, yet no confirmation
line naming it is printed, refuting that every output file (the temporary
high-resolution file included) gets exactly one confirmation line. -/
theorem C5_counterexample_temp_unconfirmed :
    Event.write "temp_256.png" (File.png 256 256 65541) ∈ (runPipeline envOk).1 ∧
    (printLines (runPipeline envOk).1).count "Created temp_256.png" = 0 ∧
    ¬ (∀ n, n ∈ writeNames (runPipeline envOk).1 →
        (printLines (runPipeline envOk).1).count ("Created " ++ n) = 1) := by
  decide

/-- C5 amended: in a successful run, every output file EXCEPT the
temporary "temp_256.png" gets exactly one confirmation line naming it,
and the temporary high-resolution file gets no confirmation line at all. -/
theorem C5_confirmation_per_output (env : Env) (c : Nat)
    (hsvg : env.svg = some c) (hw : ∀ p, env.writeOk p = true) :
    writeNames (runPipeline env).1 =
      ["favicon-16x16.png", "favicon-32x32.png", "apple-touch-icon.png",
       "temp_256.png", "favicon.ico"] ∧
    (∀ n, n ∈ writeNames (runPipeline env).1 → n ≠ "temp_256.png" →
      (printLines (runPipeline env).1).count ("Created " ++ n) = 1) ∧
    (printLines (runPipeline env).1).count "Created temp_256.png" = 0 := by
  have hrun := run_success env c hsvg hw sizes
  have h1 : writeNames (runPipeline env).1 =
      ["favicon-16x16.png", "favicon-32x32.png", "apple-touch-icon.png",
       "temp_256.png", "favicon.ico"] := by
    simp only [runPipeline]
    rw [hrun]
    simp [sizes, batchTrace, writeNames_append, writeNames]
  have h2 : printLines (runPipeline env).1 =
      ["Created favicon-16x16.png", "Created favicon-32x32.png",
       "Created apple-touch-icon.png", "Created favicon.ico"] := by
    simp only [runPipeline]
    rw [hrun]
    simp [sizes, batchTrace, printLines_append, printLines]
  refine ⟨h1, ?_, ?_⟩
  · rw [h1, h2]; decide
  · rw [h2]; decide

/-- Witness for the amended C5 at `envOk`. -/
theorem C5_confirmation_per_output_witness :
    writeNames (runPipeline envOk).1 =
      ["favicon-16x16.png", "favicon-32x32.png", "apple-touch-icon.png",
       "temp_256.png", "favicon.ico"] :=
  (C5_confirmation_per_output envOk 5 rfl (fun _ => rfl)).1

/-- C6: rendering is deterministic. (a) Two runs over the same size
specification in environments agreeing on the source file, the rasterizer,
the downscaler and path writability produce identical traces and outcome —
re-running the pipeline on unchanged inputs reproduces the outputs
exactly. (b) In a successful run, the pixel content of every PNG written is
purely a function of the source content and the requested
dimensions. -/
theorem C6_rendering_deterministic :
    (∀ env₁ env₂ spec, env₁.svg = env₂.svg → env₁.render = env₂.render →
      env₁.downscale = env₂.downscale → env₁.writeOk = env₂.writeOk →
      runPipelineWith env₁ spec = runPipelineWith env₂ spec) ∧
    (∀ env c spec, env.svg = some c → (∀ p, env.writeOk p = true) →
      ∀ n w h px, Event.write n (File.png w h px) ∈ (runPipelineWith env spec).1 →
        px = env.render c w h) := by
  constructor
  · intro env₁ env₂ spec h1 h2 h3 h4
    obtain ⟨s₁, r₁, d₁, w₁⟩ := env₁
    obtain ⟨s₂, r₂, d₂, w₂⟩ := env₂
    simp only at h1 h2 h3 h4
    subst h1; subst h2; subst h3; subst h4
    rfl
  · intro env c spec hsvg hw n w h px hmem
    rw [run_success env c hsvg hw spec] at hmem
    simp only [List.mem_append] at hmem
    rcases hmem with hmem | hmem
    · exact (batchTrace_png_content env c spec n w h px hmem).2
    · simp [icoSave] at hmem
      obtain ⟨_, hw', hh, hpx⟩ := hmem
      subst hw'; subst hh; subst hpx; rfl

/-- Witness for C6: two definitionally distinct but fieldwise equal
environments run to the same result, and the content of the 16x16 output in a
concrete run is the rasterization of the source at 16x16. -/
theorem C6_rendering_deterministic_witness :
    runPipelineWith envOk sizes = runPipelineWith envOk2 sizes ∧
    (261 : Nat) = envOk.render 5 16 16 :=
  ⟨C6_rendering_deterministic.1 envOk envOk2 sizes rfl rfl rfl rfl,
   C6_rendering_deterministic.2 envOk 5 sizes rfl (fun _ => rfl)
     "favicon-16x16.png" 16 16 261 (by decide)⟩

/-- C7: in a successful run, Operation B writes a 256x256 PNG rendered
from the source to "temp_256.png", a path distinct from every Size
Specification output name; the trace contains no delete or rename events
at all (the event vocabulary has none), and the temporary file is still on
disk in the final filesystem state after Operation C completes. -/
theorem C7_temp_file_left_behind (env : Env) (c : Nat)
    (hsvg : env.svg = some c) (hw : ∀ p, env.writeOk p = true) :
    Event.write "temp_256.png" (File.png 256 256 (env.render c 256 256)) ∈
      (runPipeline env).1 ∧
    "temp_256.png" ∉ sizes.map Prod.fst ∧
    ("temp_256.png", File.png 256 256 (env.render c 256 256)) ∈
      finalFs (runPipeline env).1 := by
  have hrun := run_success env c hsvg hw sizes
  refine ⟨?_, by decide, ?_⟩
  · simp only [runPipeline]
    rw [hrun]
    simp
  · simp only [runPipeline]
    rw [hrun]
    simp [sizes, batchTrace, finalFs, applyEvent]

/-- Witness for C7 at `envOk`. -/
theorem C7_temp_file_left_behind_witness :
    ("temp_256.png", File.png 256 256 65541) ∈ finalFs (runPipeline envOk).1 :=
  (C7_temp_file_left_behind envOk 5 rfl (fun _ => rfl)).2.2

/-- C8: in every run — whatever the environment, including failing ones —
the SVG source "favicon.svg" is never written (the input is read-only for
the whole run), and the written paths are pairwise distinct, so every
output file is created and written exactly once; the event vocabulary has
no delete or rename, so nothing is ever updated or removed afterwards. -/
theorem C8_source_readonly_write_once (env : Env) :
    "favicon.svg" ∉ writeNames (runPipeline env).1 ∧
    (writeNames (runPipeline env).1).Nodup := by
  obtain ⟨s, hs, hsub⟩ := run_writeNames env sizes
  have hbatch := batch_writeNames_sublist env sizes
  have hbkeys : ∀ a, a ∈ writeNames (batchRasterize env sizes).1 →
      a ∈ ["favicon-16x16.png", "favicon-32x32.png", "apple-touch-icon.png"] := by
    intro a ha
    have := hbatch.subset ha
    simpa [sizes] using this
  have hskeys : ∀ a, a ∈ s → a ∈ ["temp_256.png", "favicon.ico"] :=
    fun a ha => hsub.subset ha
  rw [runPipeline, hs]
  constructor
  · intro hmem
    rcases List.mem_append.mp hmem with h | h
    · have := hbkeys _ h
      simp at this
    · have := hskeys _ h
      simp at this
  · refine List.Nodup.append ?_ ?_ ?_
    · exact List.Nodup.sublist hbatch (by decide)
    · exact List.Nodup.sublist hsub (by decide)
    · intro a ha hb
      have h1 := hbkeys _ ha
      have h2 := hskeys _ hb
      simp at h1 h2
      rcases h1 with rfl | rfl | rfl <;> simp at h2

/-- C9: in a successful run, the container written to "favicon.ico" is
built from the 256x256 content Operation B rendered: each of its four
embedded entries (16, 32, 48, 256) carries the pixel content obtained by
downsampling that 256x256 base, and the container sits in the final
filesystem state under the fixed name "favicon.ico". -/
theorem C9_pack_from_highres (env : Env) (c : Nat) (hsvg : env.svg = some c)
    (hw : ∀ p, env.writeOk p = true) :
    Event.write "favicon.ico"
      (File.ico [(16, 16, env.downscale (env.render c 256 256) 16 16),
                 (32, 32, env.downscale (env.render c 256 256) 32 32),
                 (48, 48, env.downscale (env.render c 256 256) 48 48),
                 (256, 256, env.downscale (env.render c 256 256) 256 256)]) ∈
      (runPipeline env).1 ∧
    ("favicon.ico", icoSave env (env.render c 256 256)) ∈
      finalFs (runPipeline env).1 := by
  have hrun := run_success env c hsvg hw sizes
  constructor
  · simp only [runPipeline]
    rw [hrun]
    simp [icoSave, icoSizes]
  · simp only [runPipeline]
    rw [hrun]
    simp [sizes, batchTrace, finalFs, applyEvent]

/-- Witness for C9 at `envOk`. -/
theorem C9_pack_from_highres_witness :
    ("favicon.ico", icoSave envOk (envOk.render 5 256 256)) ∈
      finalFs (runPipeline envOk).1 :=
  (C9_pack_from_highres envOk 5 rfl (fun _ => rfl)).2

/-- C10: in every run, over any size specification: every print in the
trace confirms a file written strictly before it (checked positionally by
`confirmsAfterWrite`), and every printed line is "Created <n>" for some
path `n` that is present in the final filesystem state — so a confirmation
is only ever printed for an entry whose write completed, and a confirmed
file exists on disk. -/
theorem C10_confirm_only_after_write (env : Env) (spec : List (String × Nat)) :
    confirmsAfterWrite [] (runPipelineWith env spec).1 = true ∧
    (∀ l, Event.print l ∈ (runPipelineWith env spec).1 →
      ∃ n, l = "Created " ++ n ∧ ∃ f, (n, f) ∈ finalFs (runPipelineWith env spec).1) := by
  refine ⟨confirmsAfterWrite_run env spec [], ?_⟩
  intro l h
  rcases run_prints_confirm env spec l h with ⟨n, hl, hn⟩
  exact ⟨n, hl, mem_finalFs_of_written _ n hn⟩

end OrbitCheck
